import Mathlib

/-!
# Verification of the conversation orchestration core of `ai_intynet`

Shallow embedding of the repository's conversation orchestration engine:

* `app/services/message_buffer.py` — the per-customer debounce scheduler
  (`MessageBuffer`), embedded as a deterministic transition function over an
  explicit scheduler state, with asyncio task interleavings modelled as event
  sequences (the body of `add_message` contains no `await`, so it is one atomic
  step; the watcher `_process_when_ready` suspends at `asyncio.sleep` and at the
  `await` of the process callback, giving the `wake`/`finish` events).
* `app/main.py` — the escalation overlay (`process_buffered_message`,
  `is_acknowledgment`, `is_complaint_or_report_related`).
* `app/services/ai_handler.py` — the state machine (`AIHandler.process_message`
  and its per-state handlers), with the language-model oracle abstracted as a
  record of response functions.
* `app/services/qiscus_service.py` — `check_escalated_tag` over a list of tags.

Python strings are embedded as `String`/`List Char` with explicit models of
`lower`, `strip`, `rstrip`, `split`, `in` (substring), and of the concrete
regular expressions used by the source (whose character classes are disjoint,
so greedy matching needs at most one step of backtracking, modelled exactly).
Timestamps are natural numbers (seconds for tags, tenths of a second for the
buffer, mirroring the `0.1`-second tolerance). Python exceptions that escape a
function are modelled with `Option`/a `crashed` flag.
-/

/-! ## Python string primitives (ASCII fragment used by the source) -/

/-- Python whitespace for `str.split`/`str.strip` (ASCII fragment; every string
the source tests against is ASCII). -/
def isPySpace (c : Char) : Bool :=
  c == ' ' || c == '\t' || c == '\n' || c == '\r' ||
  c == Char.ofNat 11 || c == Char.ofNat 12

/-- Python `str.lower` (ASCII fragment). -/
def pyLower (s : String) : String :=
  String.mk (s.toList.map Char.toLower)

/-- Python `str.upper` (ASCII fragment). -/
def pyUpper (s : String) : String :=
  String.mk (s.toList.map Char.toUpper)

/-- Python `str.strip()` on a character list. -/
def pyStripList (l : List Char) : List Char :=
  ((l.dropWhile isPySpace).reverse.dropWhile isPySpace).reverse

/-- Python `str.strip()`. -/
def pyStrip (s : String) : String :=
  String.mk (pyStripList s.toList)

/-- Python `str.rstrip(cs)`: remove trailing characters drawn from `cs`. -/
def pyRstrip (cs : List Char) (s : String) : String :=
  String.mk ((s.toList.reverse.dropWhile (fun c => cs.contains c)).reverse)

/-- Python `str.split()` (no argument): split on runs of whitespace, dropping
empty words. -/
def pySplit (s : String) : List String :=
  ((s.toList.foldr
      (fun c acc =>
        if isPySpace c then [] :: acc
        else
          match acc with
          | [] => [[c]]
          | w :: ws => (c :: w) :: ws)
      []).filter (fun w => !w.isEmpty)).map String.mk

/-- Substring test on character lists (Python `needle in haystack`). -/
def isSubList (p : List Char) : List Char → Bool
  | [] => p.isEmpty
  | c :: rest => p.isPrefixOf (c :: rest) || isSubList p rest

/-- Python `needle in haystack` for strings. -/
def pyIn (needle haystack : String) : Bool :=
  isSubList needle.toList haystack.toList

/-! ## Overlay classifiers (`app/main.py`) -/

/-- The acknowledgment vocabulary `ack_responses` of `is_acknowledgment`. -/
def ackResponses : List String :=
  ["ok", "oke", "okey", "okay", "baik", "baiklah", "siap", "sip",
   "iya", "ya", "yaa", "yup", "yep", "thanks", "makasih", "terima kasih",
   "noted", "good", "mantap", "aman", "done", "sudah", "udah"]

/-- `is_acknowledgment` from `app/main.py`. The source computes
`message.lower().strip().rstrip(".!,")`, tests list membership, then splits
into words and evaluates `words[0]`; when the word list is empty that indexing
raises `IndexError`, modelled as `none`. -/
def isAcknowledgment (message : String) : Option Bool :=
  let messageClean := pyRstrip ['.', '!', ','] (pyStrip (pyLower message))
  if ackResponses.contains messageClean then some true
  else
    let words := pySplit messageClean
    if words.length ≤ 3 then
      match words with
      | [] => none
      | w :: _ => if ackResponses.contains w then some true else some false
    else some false

/-- The keyword vocabulary `complaint_keywords` of
`is_complaint_or_report_related`. -/
def complaintKeywords : List String :=
  ["laporan", "gimana", "bagaimana", "sudah", "udah", "belum",
   "progress", "status", "proses", "ditangani", "kapan",
   "gangguan", "mati", "lambat", "putus", "tidak bisa", "gak bisa",
   "ga bisa", "gabisa", "gk bisa", "error", "masalah", "kendala",
   "trouble", "down", "lelet", "lemot", "lag", "disconnect",
   "los", "merah", "rusak", "wifi", "internet", "koneksi",
   "masih", "tetap", "tetep", "sama aja", "gk usah", "juga"]

/-- `is_complaint_or_report_related` from `app/main.py`: any keyword occurs as
a substring of the lower-cased message. -/
def isComplaintOrReportRelated (message : String) : Bool :=
  complaintKeywords.any (fun kw => pyIn kw (pyLower message))

/-! ## Regular-expression simulations (`app/services/ai_handler.py`)

Every pattern in the source alternates disjoint character classes
(`[:\s]` vs `[A-Za-z0-9]`, letters vs digits), so Python's greedy
backtracking search reduces to maximal-run scans, except for the one-character
give-back of `[:\s]*` before `(.+)` in the description pattern, modelled
explicitly. `re.search` is leftmost search, modelled by scanning positions
left to right. -/

/-- The class `[:\s]`. -/
def isSepChar (c : Char) : Bool := c == ':' || isPySpace c

/-- The class `[A-Za-z0-9]`. -/
def isAlnumChar (c : Char) : Bool := c.isAlpha || c.isDigit

/-- The class `[A-Za-z]`. -/
def isAlphaChar (c : Char) : Bool := c.isAlpha

/-- The class `[,\s]`. -/
def isCommaSpace (c : Char) : Bool := c == ',' || isPySpace c

/-- Match of `(?:ID|id|Id)[:\s]*([A-Za-z0-9]+)` anchored at the head of the
list; yields the capture group. -/
def idLabelAt : List Char → Option String
  | c1 :: c2 :: rest =>
    if (c1 == 'I' && c2 == 'D') || (c1 == 'i' && c2 == 'd') ||
        (c1 == 'I' && c2 == 'd') then
      let tok := (rest.dropWhile isSepChar).takeWhile isAlnumChar
      if tok.isEmpty then none else some (String.mk tok)
    else none
  | _ => none

/-- `re.search(r"(?:ID|id|Id)[:\s]*([A-Za-z0-9]+)", message)`, returning the
capture group of the leftmost match. -/
def searchIdLabel : List Char → Option String
  | [] => none
  | c :: rest =>
    match idLabelAt (c :: rest) with
    | some t => some t
    | none => searchIdLabel rest

/-- Case-insensitive literal prefix match, returning the remainder. -/
def ciPrefixDrop (lab : List Char) (l : List Char) : Option (List Char) :=
  if (l.take lab.length).map Char.toLower == lab then some (l.drop lab.length)
  else none

/-- Match of
`(?:Gangguan|gangguan|GANGGUAN|Detail|detail|Masalah|masalah)[:\s]*(.+)` with
`re.IGNORECASE | re.DOTALL` anchored at the head; yields the capture group.
With `DOTALL`, greedy `(.+)` takes the whole remainder; when the remainder
after the separator run is empty, `[:\s]*` gives one character back. -/
def descLabelAt (l : List Char) : Option String :=
  let afterLabel :=
    match ciPrefixDrop "gangguan".toList l with
    | some r => some r
    | none =>
      match ciPrefixDrop "detail".toList l with
      | some r => some r
      | none => ciPrefixDrop "masalah".toList l
  match afterLabel with
  | none => none
  | some after =>
    let run := (after.takeWhile isSepChar).length
    let rest := after.drop run
    if !rest.isEmpty then some (String.mk rest)
    else if run ≥ 1 then some (String.mk (after.drop (run - 1)))
    else none

/-- Leftmost search for the description-label pattern; yields the raw capture
group (before `.strip()`). -/
def searchDescLabel : List Char → Option String
  | [] => none
  | c :: rest =>
    match descLabelAt (c :: rest) with
    | some t => some t
    | none => searchDescLabel rest

/-- Match of `[A-Za-z]\d{3,}[A-Za-z]*` anchored at the head (whole match). -/
def custIdP1At : List Char → Option String
  | [] => none
  | c :: rest =>
    if isAlphaChar c then
      let digits := rest.takeWhile Char.isDigit
      if digits.length ≥ 3 then
        let letters := (rest.drop digits.length).takeWhile isAlphaChar
        some (String.mk (c :: (digits ++ letters)))
      else none
    else none

/-- Match of `\d{3,}[A-Za-z]+` anchored at the head (whole match). -/
def custIdP2At (l : List Char) : Option String :=
  let digits := l.takeWhile Char.isDigit
  if digits.length ≥ 3 then
    let letters := (l.drop digits.length).takeWhile isAlphaChar
    if letters.isEmpty then none
    else some (String.mk (digits ++ letters))
  else none

/-- Match of `[A-Za-z]{2,}\d{3,}` anchored at the head (whole match). -/
def custIdP3At (l : List Char) : Option String :=
  let letters := l.takeWhile isAlphaChar
  if letters.length ≥ 2 then
    let digits := (l.drop letters.length).takeWhile Char.isDigit
    if digits.length ≥ 3 then some (String.mk (letters ++ digits)) else none
  else none

/-- Leftmost `re.search` for an anchored matcher. -/
def searchWith (pat : List Char → Option String) : List Char → Option String
  | [] => pat []
  | c :: rest =>
    match pat (c :: rest) with
    | some t => some t
    | none => searchWith pat rest

/-- `AIHandler._extract_customer_id`: the three patterns are searched in order
over `message.upper()`; Python `None` is `none`. -/
def extractCustomerId (message : String) : Option String :=
  let u := (pyUpper message).toList
  match searchWith custIdP1At u with
  | some t => some t
  | none =>
    match searchWith custIdP2At u with
    | some t => some t
    | none => searchWith custIdP3At u

/-- One step of `re.sub(r"(?:ID|id|Id)[:\s]*[A-Za-z0-9]+[,\s]*", "", message)`:
match attempt anchored at the head, returning the remainder after the matched
region. -/
def subIdMatchAt : List Char → Option (List Char)
  | c1 :: c2 :: rest =>
    if (c1 == 'I' && c2 == 'D') || (c1 == 'i' && c2 == 'd') ||
        (c1 == 'I' && c2 == 'd') then
      let afterSep := rest.dropWhile isSepChar
      let tok := afterSep.takeWhile isAlnumChar
      if tok.isEmpty then none
      else some ((afterSep.drop tok.length).dropWhile isCommaSpace)
    else none
  | _ => none

/-- `re.sub` deleting every non-overlapping leftmost match of the ID pattern.
`fuel` bounds recursion; each step consumes at least one character, so
`l.length` fuel is exact. -/
def subIdAux : Nat → List Char → List Char
  | _, [] => []
  | 0, l => l
  | fuel + 1, c :: rest =>
    match subIdMatchAt (c :: rest) with
    | some rem => subIdAux fuel rem
    | none => c :: subIdAux fuel rest

/-- `re.sub(r"(?:ID|id|Id)[:\s]*[A-Za-z0-9]+[,\s]*", "", message)`. -/
def subIdPattern (message : String) : String :=
  String.mk (subIdAux message.toList.length message.toList)

/-! ## Data model: Python values, dicts, sessions -/

/-- Values stored in a session's `collected_data` dict: strings, booleans,
`None`, and the string-valued `customer_data` dict. -/
inductive CVal where
  | str (s : String)
  | flag (b : Bool)
  | null
  | obj (d : List (String × String))
deriving DecidableEq, Repr

/-- A Python dict with `CVal` values, as an insertion-ordered association
list with unique keys. -/
def CDict := List (String × CVal)
deriving instance DecidableEq, Repr for CDict

/-- `d.get(k)` — `none` for a missing key (Python `None`). -/
def dget (d : CDict) (k : String) : Option CVal :=
  match d with
  | [] => none
  | (k0, v0) :: rest => if k0 = k then some v0 else dget rest k

/-- `d.get(k, dflt)`. -/
def dgetD (d : CDict) (k : String) (dflt : CVal) : CVal :=
  (dget d k).getD dflt

/-- `d[k] = v` — replace in place, or append a new key. -/
def dset (d : CDict) (k : String) (v : CVal) : CDict :=
  match d with
  | [] => [(k, v)]
  | (k0, v0) :: rest => if k0 = k then (k, v) :: rest else (k0, v0) :: dset rest k v

/-- `d.pop(k, None)` — keys are unique, so dropping every binding of `k`
coincides with Python's single-key removal. -/
def dpop (d : CDict) (k : String) : CDict :=
  d.filter (fun kv => kv.1 ≠ k)

/-- `k in d`. -/
def dhas (d : CDict) (k : String) : Bool :=
  d.any (fun kv => kv.1 == k)

/-- Python truthiness of an optional dict value (`None`, `""`, `False` and
`{}` are falsy). -/
def pyTruthyV : Option CVal → Bool
  | none => false
  | some (.str s) => !(s == "")
  | some (.flag b) => b
  | some .null => false
  | some (.obj d) => !d.isEmpty

/-- An ASCII single-quote, built by code point to keep source lexing plain. -/
def pyQuote : String := String.singleton (Char.ofNat 39)

/-- Python `str()` of a stored value, as interpolated by the source's
f-strings. -/
def pyStr : CVal → String
  | .str s => s
  | .flag b => if b then "True" else "False"
  | .null => "None"
  | .obj d =>
    "\x7b" ++
      String.intercalate ", "
        (d.map (fun kv => pyQuote ++ kv.1 ++ pyQuote ++ ": " ++ pyQuote ++ kv.2 ++ pyQuote)) ++
      "\x7d"

/-- A persisted session dict. Each field is `Option` because the source
manipulates raw dicts whose keys may be absent (the reset session written by
`process_buffered_message` omits `collected_data` entirely). -/
structure PySession where
  state : Option String
  collectedData : Option CDict
  messageCount : Option Nat
deriving DecidableEq, Repr

/-- `SessionManager.DEFAULT_SESSION` (note: its state `"detect"` is not one of
`AIHandler`'s declared states). -/
def defaultSession : PySession :=
  { state := some "detect", collectedData := some [], messageCount := some 0 }

/-- `SessionManager.get_session`: the stored record, or a copy of the default
when absent. -/
def getSession (stored : Option PySession) : PySession :=
  stored.getD defaultSession

/-! ## `AIHandler` (`app/services/ai_handler.py`) -/

/-- The state constants of `AIHandler`. -/
def stateGreeting : String := "greeting"
def stateCheckResolved : String := "check_resolved"
def stateCollectForm : String := "collect_form"
def stateValidatingCustomer : String := "validating_customer"
def stateConfirmData : String := "confirm_data"
def stateCompleted : String := "completed"

/-- The six states `process_message` routes on. -/
def handledStates : List String :=
  [stateGreeting, stateCheckResolved, stateCollectForm,
   stateValidatingCustomer, stateConfirmData, stateCompleted]

/-- `AIHandler._detect_issue_type`. -/
def detectIssueType (message : String) : String :=
  let m := pyLower message
  if ["mati", "tidak bisa", "gak bisa", "ga bisa", "no internet",
      "putus"].any (fun w => pyIn w m) then "internet_mati"
  else if ["lambat", "lemot", "pelan", "slow", "lag",
      "lelet"].any (fun w => pyIn w m) then "internet_lambat"
  else if ["wifi", "wi-fi", "wireless", "sinyal"].any (fun w => pyIn w m) then
    "wifi_bermasalah"
  else "default"

/-- `AIHandler.TROUBLESHOOTING_STEPS`, looked up with the `"default"`
fallback as in `_handle_greeting`. -/
def troubleshootingSteps (issueType : String) : List String :=
  if issueType = "internet_mati" then
    ["Coba restart modem dengan cara cabut kabel power, tunggu 30 detik, lalu colok lagi",
     "Pastikan semua kabel (power, LAN, fiber) terpasang dengan baik dan tidak longgar",
     "Cek lampu indikator di modem - normalnya lampu Power, LAN, dan Internet/PON harus menyala hijau",
     "Jika pakai WiFi, coba sambungkan langsung pakai kabel LAN ke laptop/PC"]
  else if issueType = "internet_lambat" then
    ["Coba restart modem dulu - cabut power 30 detik lalu colok lagi",
     "Cek berapa device yang terhubung ke WiFi, mungkin terlalu banyak",
     "Coba dekatkan device ke modem/router atau pindah ke ruangan yang lebih dekat",
     "Pastikan tidak ada yang sedang download besar atau streaming di device lain"]
  else if issueType = "wifi_bermasalah" then
    ["Restart modem dengan cabut kabel power 30 detik",
     "Coba lupakan (forget) jaringan WiFi di HP/laptop, lalu sambungkan ulang",
     "Pastikan jarak tidak terlalu jauh dari modem",
     "Cek apakah pakai kabel LAN bisa konek normal (untuk isolasi masalah WiFi)"]
  else
    ["Langkah pertama, coba restart modem - cabut power 30 detik lalu colok lagi",
     "Pastikan semua kabel terpasang dengan baik",
     "Cek lampu indikator modem apakah normal (hijau semua)"]

/-- `AIHandler._check_still_not_working`. The negation test inside the
resolved-keyword loop does not depend on the loop variable, so the loop is
equivalent to the conjunction below. -/
def checkStillNotWorking (message : String) : Bool :=
  let m := pyLower message
  let notResolvedKeywords :=
    ["masih", "tetap", "belum", "tidak", "gak", "ga ", "nggak", "ngga",
     "sama aja", "sama saja", "tetep", "still", "blm", "tdk"]
  let resolvedKeywords :=
    ["sudah", "udah", "bisa", "berhasil", "work", "jalan", "lancar",
     "solved", "fix", "oke", "ok", "yes", "ya", "mantap", "thanks", "makasih"]
  let negations := ["tidak", "gak", "ga ", "belum", "blm"]
  if resolvedKeywords.any (fun kw => pyIn kw m) &&
      !(negations.any (fun n => pyIn n m)) then false
  else if notResolvedKeywords.any (fun kw => pyIn kw m) then true
  else false

/-- The language-model oracle (`client.chat.completions` calls), abstracted
per call site as the spec's IntentOracle contract. `none` models an exception
escaping the call (connection error or JSON parse failure); `generate` models
`_generate_ai_response`, which catches its own exceptions and returns an
apology string, hence is total. For `hasIssue`, the summary field is
`Option (Option String)`: `none` = key absent, `some none` = JSON `null`
(Python `dict.get` with a default distinguishes the two). -/
structure Oracle where
  hasIssue : String → Option (Bool × Option (Option String))
  resolved : String → Option Bool
  newIssue : String → Option Bool
  generate : String → String → String

/-- The dict returned by each `_handle_*` method, plus the keys
`process_message`'s callers read through `.get` (absent keys read as falsy:
in particular no handler ever sets `"ai_stop"`, see `handleConfirmation`). -/
structure AIResult where
  reply : String
  session : PySession
  aiStop : Bool
  reportCreated : Bool
  reportData : Option CDict
  needsValidation : Bool
  customerRefId : Option String
deriving DecidableEq, Repr

/-- A handler result carrying only `reply` and `session` (every optional key
absent, so every `.get` on it is falsy). -/
def plainResult (reply : String) (st : String) (cd : CDict) : AIResult :=
  { reply := reply,
    session := { state := some st, collectedData := some cd, messageCount := none },
    aiStop := false, reportCreated := false, reportData := none,
    needsValidation := false, customerRefId := none }

/-- `AIHandler._handle_greeting`: ask the oracle whether the message carries
an issue; on an issue, store the summary and issue type, emit troubleshooting
steps and move to `check_resolved`; otherwise (or on an oracle exception)
greet and stay in `greeting`. -/
def handleGreeting (o : Oracle) (message : String) (cd : CDict) : AIResult :=
  match o.hasIssue message with
  | some (true, summaryOpt) =>
    let summaryV : CVal :=
      match summaryOpt with
      | none => .str message
      | some none => .null
      | some (some s) => .str s
    let cd1 := dset cd "initial_complaint" summaryV
    let issueType := detectIssueType message
    let cd2 := dset cd1 "issue_type" (.str issueType)
    let stepsText :=
      String.intercalate "\n"
        ((troubleshootingSteps issueType).map (fun s => "• " ++ s))
    let instruction :=
      "Customer melaporkan: " ++ pyStr summaryV ++
      "\n\nTask: Tunjukkan empati singkat, lalu berikan langkah troubleshooting ini:\n" ++
      stepsText ++
      "\n\nSetelah itu tanya apakah mau dicoba dulu dan kabari hasilnya.\nGunakan format bullet points. Max 4-5 kalimat total."
    let reply := o.generate instruction message
    let cd3 := dset cd2 "troubleshooting_given" (.flag true)
    plainResult reply stateCheckResolved cd3
  | some (false, _) =>
    plainResult
      (o.generate
        "Sapa sebagai Neti dari Intynet. Tanya ada yang bisa dibantu. Max 2 kalimat."
        message)
      stateGreeting cd
  | none =>
    plainResult
      (o.generate "Sapa sebagai Neti dari Intynet. Tanya ada yang bisa dibantu."
        message)
      stateGreeting cd

/-- The fixed copy-paste report form of `_handle_check_resolved`. -/
def reportFormText : String :=
  "Baik, saya akan bantu buatkan laporan ke tim teknis kami. 📝\n\nMohon *copy-paste* format di bawah ini, lalu isi datanya:\n\nID: \nGangguan: \n\nContoh pengisian:\nID: C650AD\nGangguan: Internet mati sejak pagi, lampu modem merah berkedip"

/-- `AIHandler._handle_check_resolved`: ask the oracle whether the issue is
resolved (falling back to `_check_still_not_working` on an exception); when
resolved, close out into `completed`; otherwise show the report form and move
to `collect_form`. -/
def handleCheckResolved (o : Oracle) (message : String) (cd : CDict) : AIResult :=
  let isResolved :=
    match o.resolved message with
    | some b => b
    | none => !(checkStillNotWorking message)
  if isResolved then
    let instruction :=
      "Senang masalahnya sudah teratasi! \nUcapkan terima kasih sudah menghubungi Intynet.\nBilang kalau ada masalah lagi bisa hubungi kapan saja.\nMax 2 kalimat."
    let reply := o.generate instruction message
    let cd1 := dset cd "resolved_by_troubleshooting" (.flag true)
    plainResult reply stateCompleted cd1
  else
    plainResult reportFormText stateCollectForm cd

/-- The fixed ask-for-id reply of `_handle_collect_form`. -/
def askIdReply : String :=
  "Hmm, saya tidak menemukan ID Pelanggan di pesanmu 🤔\n\nCoba *copy-paste* format ini ya:\n\nID: \nGangguan: \n\n*(ID bisa dilihat di tagihan/kontrak, contoh: C650AD)*"

/-- `AIHandler._handle_collect_form`: extract a labeled id and description,
falling back to `_extract_customer_id` and to the remainder of the message
after deleting the id pattern; ask for whichever piece is missing, or store
both and request validation. `nowIso` is `datetime.now().isoformat()`. -/
def handleCollectForm (nowIso : String) (message : String) (cd : CDict) :
    AIResult :=
  let idFromLabel := searchIdLabel message.toList
  let descFromLabel := (searchDescLabel message.toList).map pyStrip
  let extractedId :=
    match idFromLabel with
    | some t => some (pyUpper t)
    | none => extractCustomerId message
  let extractedDesc :=
    if (descFromLabel = none ∨ descFromLabel = some "") ∧ extractedId ≠ none then
      let descText := pyStrip (subIdPattern message)
      if descText.length > 10 then some descText else descFromLabel
    else descFromLabel
  match extractedId with
  | none => plainResult askIdReply stateCollectForm cd
  | some eid =>
    let descOk :=
      match extractedDesc with
      | none => none
      | some d => if d.length < 5 then none else some d
    match descOk with
    | none =>
      let reply :=
        "✅ ID Pelanggan: *" ++ eid ++
        "*\n\nTapi detail gangguannya belum ada. Balas dengan:\n\nGangguan: [jelaskan masalahnya, sejak kapan]"
      let cd1 := dset cd "customer_references_number" (.str eid)
      plainResult reply stateCollectForm cd1
    | some d =>
      let cd1 := dset cd "customer_references_number" (.str eid)
      let cd2 := dset cd1 "description" (.str d)
      let cd3 := dset cd2 "problem_time" (.str nowIso)
      { reply := "⏳ Sedang memverifikasi ID Pelanggan " ++ eid ++ "...",
        session := { state := some stateValidatingCustomer,
                     collectedData := some cd3, messageCount := none },
        aiStop := false, reportCreated := false, reportData := none,
        needsValidation := true, customerRefId := some eid }

/-- `collected_data.get("customer_data", {})` followed by attribute access:
a stored non-dict value would raise `AttributeError` (`none`). -/
def pyGetCustomerData (cd : CDict) : Option (List (String × String)) :=
  match dget cd "customer_data" with
  | none => some []
  | some (.obj d) => some d
  | some _ => none

/-- The fixed invalid-id reply of `_handle_validating_customer`. -/
def invalidIdReply : String :=
  "❌ Maaf, ID Pelanggan tidak ditemukan di sistem kami.\n\nPastikan ID yang dimasukkan benar. ID Pelanggan bisa dilihat di:\n• Tagihan/invoice bulanan\n• Kontrak berlangganan\n• Email konfirmasi pendaftaran\n\nMohon masukkan ID Pelanggan yang valid:"

/-- `AIHandler._handle_validating_customer`: after `customer_validated` is
set, either render the confirmation summary (`confirm_data`) or clear the
invalid id and return to `collect_form`; with no validation result, try to
re-extract an id from the message. -/
def handleValidatingCustomer (message : String) (cd : CDict) :
    Option AIResult :=
  match dget cd "customer_validated" with
  | some (.flag true) =>
    match pyGetCustomerData cd with
    | none => none
    | some customerData =>
      let nameFromSystem : CVal :=
        match customerData.find? (fun kv => kv.1 == "name") with
        | some kv => .str kv.2
        | none => dgetD cd "customer_name" (.str "-")
      let summary :=
        "📋 *Ringkasan Laporan*\n\n👤 Nama: " ++ pyStr nameFromSystem ++
        "\n📱 No. HP: " ++ pyStr (dgetD cd "phone" (.str "-")) ++
        "\n🆔 ID Pelanggan: " ++
        pyStr (dgetD cd "customer_references_number" (.str "-")) ++
        "\n❗ Keluhan Awal: " ++ pyStr (dgetD cd "initial_complaint" (.str "-")) ++
        "\n📝 Detail: " ++ pyStr (dgetD cd "description" (.str "-")) ++
        "\n\nApakah data di atas sudah benar? Balas *Ya* untuk kirim atau *Tidak* untuk koreksi."
      let cd1 :=
        if pyTruthyV (some nameFromSystem) then
          dset cd "customer_name" nameFromSystem
        else cd
      some (plainResult summary stateConfirmData cd1)
  | some (.flag false) =>
    let cd1 := dpop (dpop cd "customer_references_number") "customer_validated"
    some (plainResult invalidIdReply stateCollectForm cd1)
  | _ =>
    match extractCustomerId message with
    | some eid =>
      let cd1 := dset cd "customer_references_number" (.str eid)
      some
        { reply := "⏳ Sedang memverifikasi ID Pelanggan " ++ eid ++ "...",
          session := { state := some stateValidatingCustomer,
                       collectedData := some cd1, messageCount := none },
          aiStop := false, reportCreated := false, reportData := none,
          needsValidation := true, customerRefId := some eid }
    | none =>
      some
        (plainResult
          "Mohon masukkan ID Pelanggan Anda:\n(contoh: C650AD - bisa dilihat di tagihan)"
          stateCollectForm cd)

/-- `AIHandler._prepare_report_data` (`none` models the `AttributeError` a
non-dict `customer_data` value would raise). -/
def prepareReportData (cd : CDict) (customerId : String) : Option CDict :=
  let desc0 := dgetD cd "description" (.str "")
  let fullDescription : CVal :=
    if pyTruthyV (dget cd "initial_complaint") then
      .str ("Keluhan awal: " ++ pyStr (dgetD cd "initial_complaint" .null) ++
            "\n\nDetail: " ++ pyStr desc0)
    else desc0
  match pyGetCustomerData cd with
  | none => none
  | some customerData =>
    let fromDict (k : String) : CVal :=
      match customerData.find? (fun kv => kv.1 == k) with
      | some kv => .str kv.2
      | none => .null
    some
      [("customer_id", fromDict "id"),
       ("customer_site_id", fromDict "site_id"),
       ("customer_name", dgetD cd "customer_name" (.str "Unknown")),
       ("customer_phone", dgetD cd "phone" (.str customerId)),
       ("customer_references_number",
         (dget cd "customer_references_number").getD .null),
       ("description", fullDescription),
       ("problem_time", (dget cd "problem_time").getD .null),
       ("qiscus_session_id", .str customerId)]

/-- The fixed report-submitted reply of `_handle_confirmation`. -/
def reportSentReply : String :=
  "✅ Laporan berhasil dikirim!\n\nTim Helpdesk kami akan segera mengecek dan menghubungi Anda jika diperlukan.\n\nTerima kasih sudah melapor ke Intynet! 🙏"

/-- The keys `_handle_confirmation` keeps on a negative confirmation. -/
def confirmKeepKeys : List String :=
  ["customer_name", "phone", "initial_complaint", "issue_type",
   "troubleshooting_given"]

/-- `AIHandler._handle_confirmation`: substring yes/no detection on the
lower-cased, stripped message. On yes (and not no) it prepares the report
data and returns `report_created` — the result dict carries **no**
`"ai_stop"` key, so the caller's `ai_response.get("ai_stop")` is always
falsy. On no it clears the form fields; otherwise it asks to clarify. -/
def handleConfirmation (message : String) (cd : CDict) (customerId : String) :
    Option AIResult :=
  let msgLower := pyStrip (pyLower message)
  let yesKeywords :=
    ["ya", "yes", "benar", "betul", "ok", "oke", "y", "yap", "yup", "iya",
     "yoi", "sip", "siap", "bener"]
  let noKeywords :=
    ["tidak", "no", "salah", "bukan", "koreksi", "ubah", "ganti", "n",
     "nggak", "ngga", "ga"]
  let isYes := yesKeywords.any (fun kw => pyIn kw msgLower)
  let isNo := noKeywords.any (fun kw => pyIn kw msgLower)
  if isYes && !isNo then
    match prepareReportData cd customerId with
    | none => none
    | some reportData =>
      some
        { reply := reportSentReply,
          session := { state := some stateCompleted, collectedData := some cd,
                       messageCount := none },
          aiStop := false, reportCreated := true, reportData := some reportData,
          needsValidation := false, customerRefId := none }
  else if isNo then
    let cd1 := cd.filter (fun kv => confirmKeepKeys.contains kv.1)
    some
      (plainResult
        "Baik, silakan isi ulang dengan format:\n• *ID Pelanggan*: (contoh: C650AD)\n• *Detail Gangguan*: (jelaskan masalahnya)"
        stateCollectForm cd1)
  else
    some
      (plainResult
        "Mohon balas *Ya* jika data sudah benar, atau *Tidak* jika ingin koreksi."
        stateConfirmData cd)

/-- `AIHandler._handle_completed`: on a detected new issue, restart the
greeting flow with only the identity fields (stored verbatim, `None` when
absent); otherwise (also on an oracle exception) emit the generic follow-up
reply and stay in `completed`. -/
def handleCompleted (o : Oracle) (message : String) (cd : CDict) : AIResult :=
  match o.newIssue message with
  | some true =>
    handleGreeting o message
      [("customer_name", (dget cd "customer_name").getD .null),
       ("phone", (dget cd "phone").getD .null)]
  | _ =>
    plainResult
      "Ada yang bisa saya bantu lagi? Kalau ada masalah lain, silakan ceritakan ya 😊"
      stateCompleted cd

/-- `AIHandler.process_message`: route on `session.get("state", "greeting")`
after recording the customer's name and phone into `collected_data`, then add
the incremented `message_count` to the returned session. Any state outside
`handledStates` falls into the final `else`, which calls `_handle_greeting`
with an **empty** `collected_data`. `none` models an uncaught exception
(see `pyGetCustomerData`). -/
def processMessage (o : Oracle) (nowIso : String)
    (customerId customerName message : String) (session : PySession) :
    Option AIResult :=
  let currentState := session.state.getD stateGreeting
  let cd0 := session.collectedData.getD []
  let messageCount := session.messageCount.getD 0 + 1
  let cd1 :=
    if customerName ≠ "" ∧ ¬(dhas cd0 "customer_name" = true) then
      dset cd0 "customer_name" (.str customerName)
    else cd0
  let cd2 :=
    if customerId ≠ "" ∧ ¬(dhas cd1 "phone" = true) then
      dset cd1 "phone" (.str customerId)
    else cd1
  let routed : Option AIResult :=
    if currentState = stateGreeting then some (handleGreeting o message cd2)
    else if currentState = stateCheckResolved then
      some (handleCheckResolved o message cd2)
    else if currentState = stateCollectForm then
      some (handleCollectForm nowIso message cd2)
    else if currentState = stateValidatingCustomer then
      handleValidatingCustomer message cd2
    else if currentState = stateConfirmData then
      handleConfirmation message cd2 customerId
    else if currentState = stateCompleted then
      some (handleCompleted o message cd2)
    else some (handleGreeting o message [])
  routed.map fun r =>
    { r with session := { r.session with messageCount := some messageCount } }

/-! ## `QiscusService.check_escalated_tag` (`app/services/qiscus_service.py`) -/

/-- A Qiscus room tag as seen by `check_escalated_tag`. `id` is already
`str(tag.get("id", ""))`; `roomTagCreated` is the `room_tag_created`
ISO-8601 timestamp, parsed to epoch seconds — `none` for a missing/empty
field or a `datetime.fromisoformat` failure, either of which leaves
`is_expired` at `False` in the source. -/
structure QTag where
  id : String
  name : String
  roomTagCreated : Option Nat
deriving DecidableEq, Repr

/-- `QiscusService.TAG_AI_ESCALATED`. -/
def tagAiEscalated : String := "Direspon AI"

/-- Configuration of `QiscusService`: `TAG_ID_AI_ESCALATED` and
`TAG_EXPIRY_DAYS`. -/
structure QiscusCfg where
  tagIdEscalated : String
  tagExpiryDays : Nat
deriving DecidableEq, Repr

/-- `QiscusService.check_escalated_tag` over the tag list returned by
`get_room_tags`, at current time `now` (epoch seconds): the first tag whose
id or name matches is returned, with
`is_expired = now > created + days * 86400`. -/
def checkEscalatedTag (cfg : QiscusCfg) (now : Nat) :
    List QTag → Bool × Bool × Option String
  | [] => (false, false, none)
  | t :: rest =>
    if t.id == cfg.tagIdEscalated || t.name == tagAiEscalated then
      let isExpired :=
        match t.roomTagCreated with
        | none => false
        | some created => decide (now > created + cfg.tagExpiryDays * 86400)
      (true, isExpired, some t.id)
    else checkEscalatedTag cfg now rest

/-! ## `process_buffered_message` (`app/main.py`) -/

/-- The metadata dict attached by the webhook handler. Both keys are read
with `.get`: `customer_name` defaults to `"Customer"`, `room_id` to `None`
(and an empty string is falsy at every `if room_id:`). -/
structure Meta where
  customerName : Option String
  roomId : Option String
deriving DecidableEq, Repr

/-- Python truthiness of `metadata.get("room_id")`. -/
def roomTruthy (m : Meta) : Bool :=
  match m.roomId with
  | none => false
  | some r => !(r == "")

/-- The fixed pending-report interception reply. -/
def pendingReportReply : String :=
  "Halo kak! 👋\n\nLaporan kakak masih dalam proses penanganan oleh tim teknis kami. Mohon ditunggu ya kak, tim kami akan segera menghubungi kakak untuk tindak lanjut.\n\nTerima kasih atas kesabarannya 🙏"

/-- The reset session written on tag expiry and on an admin-removed tag:
`{"state": "detect", "message_count": 0}` — note the missing
`collected_data` key. -/
def resetSession : PySession :=
  { state := some "detect", collectedData := none, messageCount := some 0 }

/-- The observable effects of one `process_buffered_message` call, in call
order. `crashed` records an exception escaping the coroutine (it would be
caught and logged by `MessageBuffer._process_when_ready`); effects performed
before the raise remain recorded. -/
structure Effects where
  sent : List (String × String)
  removedTags : List (String × String)
  marked : List String
  sessionWrites : List (String × PySession)
  aiCalls : List PySession
  aiResult : Option AIResult
  crashed : Bool
deriving DecidableEq, Repr

/-- `process_buffered_message` from `app/main.py`, with the Qiscus tag
lookup's result supplied as the `tags` list, the session store's record as
`stored`, and wall-clock time as `now` (epoch seconds) / `nowIso`
(`datetime.now().isoformat()`). -/
def processBufferedMessage (cfg : QiscusCfg) (o : Oracle) (now : Nat)
    (nowIso : String) (customerId : String) (meta : Meta) (message : String)
    (stored : Option PySession) (tags : List QTag) : Effects :=
  let rid := meta.roomId.getD ""
  let customerName := meta.customerName.getD "Customer"
  let session := getSession stored
  match isAcknowledgment message with
  | none =>
    { sent := [], removedTags := [], marked := [], sessionWrites := [],
      aiCalls := [], aiResult := none, crashed := true }
  | some true =>
    { sent := if roomTruthy meta then [(rid, "Siap kak!")] else [],
      removedTags := [], marked := [], sessionWrites := [], aiCalls := [],
      aiResult := none, crashed := false }
  | some false =>
    let tagState :=
      if roomTruthy meta then checkEscalatedTag cfg now tags
      else (false, false, none)
    let hasTag0 := tagState.1
    let isExpired := tagState.2.1
    let tagId := tagState.2.2
    let tagIdTruthy :=
      match tagId with
      | none => false
      | some t => !(t == "")
    let expiredBranch := hasTag0 && isExpired && tagIdTruthy
    let removedTags := if expiredBranch then [(rid, tagId.getD "")] else []
    let hasTag := if expiredBranch then false else hasTag0
    let session1 := if expiredBranch then resetSession else session
    let writes1 : List (String × PySession) :=
      if expiredBranch then [(customerId, resetSession)] else []
    if hasTag && !isExpired && isComplaintOrReportRelated message then
      { sent := [(rid, pendingReportReply)], removedTags := removedTags,
        marked := [], sessionWrites := writes1, aiCalls := [],
        aiResult := none, crashed := false }
    else
      let session2 :=
        if hasTag && !isExpired then
          let cd := session1.collectedData.getD []
          { session1 with
            collectedData := some (dset cd "has_pending_report" (.flag true)) }
        else session1
      let adminReset := !hasTag && (session2.state == some "escalated")
      let session3 := if adminReset then resetSession else session2
      let writes2 :=
        writes1 ++ (if adminReset then [(customerId, resetSession)] else [])
      match processMessage o nowIso customerId customerName message session3 with
      | none =>
        { sent := [], removedTags := removedTags, marked := [],
          sessionWrites := writes2, aiCalls := [session3], aiResult := none,
          crashed := true }
      | some air =>
        let newSession := air.session
        if air.aiStop then
          { sent := [], removedTags := removedTags,
            marked := if roomTruthy meta then [rid] else [],
            sessionWrites := writes2 ++ [(customerId, newSession)],
            aiCalls := [session3], aiResult := some air, crashed := false }
        else
          { sent :=
              if roomTruthy meta && !(air.reply == "") then [(rid, air.reply)]
              else [],
            removedTags := removedTags, marked := [],
            sessionWrites := writes2 ++ [(customerId, newSession)],
            aiCalls := [session3], aiResult := some air, crashed := false }

/-! ## `MessageBuffer` (`app/services/message_buffer.py`)

The scheduler is embedded as a deterministic step function over an explicit
state, driven by an event list that fixes one asyncio interleaving:

* `add c m meta` — one `add_message` call (its body has no `await`, so it is
  atomic);
* `wake c` — a watcher task resumes from `asyncio.sleep(self.delay)` and runs
  the loop body; when the elapsed-time check passes it atomically pops the
  buffer and invokes the callback (no `await` separates the pop from the
  call), entering the `calling` phase;
* `finish c` / `finishErr c` — the awaited callback returns / raises; the
  `except` clause pops the buffer again, and `finally` releases the
  `active_processors` marker in both cases;
* `clear c` — `MessageBuffer.clear` (which never cancels a running task);
* `tick n` — `time.time()` advances by `n` tenths of a second.

Inapplicable events are no-ops. Times are tenths of a second so that the
source's `>= self.delay - 0.1` tolerance is exact. -/

/-- A buffer entry `self.buffers[customer_id]`; `metadata` is the opaque bag
of type `M`. -/
structure PyBuffer (M : Type) where
  messages : List String
  metadata : M
  createdAt : Nat
  lastUpdate : Nat
deriving DecidableEq, Repr

/-- Where a live `_process_when_ready` task is suspended. -/
inductive WPhase where
  | waiting
  | calling
deriving DecidableEq, Repr

/-- One recorded callback invocation. -/
structure Delivery (M : Type) where
  cust : String
  msgs : List String
  combined : String
  meta : M
deriving DecidableEq, Repr

/-- The scheduler state: the `buffers` dict, the `active_processors` marker
set, the multiset of live watcher tasks, the clock, and the log of handler
invocations. -/
structure BufState (M : Type) where
  now : Nat
  buffers : List (String × PyBuffer M)
  active : List String
  watchers : List (String × WPhase)
  delivered : List (Delivery M)
deriving DecidableEq, Repr

/-- Dict lookup in `buffers`. -/
def bFind {M : Type} : List (String × PyBuffer M) → String → Option (PyBuffer M)
  | [], _ => none
  | (k, b) :: rest, c => if k = c then some b else bFind rest c

/-- In-place mutation of an existing `buffers` entry. -/
def bUpd {M : Type} :
    List (String × PyBuffer M) → String → PyBuffer M → List (String × PyBuffer M)
  | [], _, _ => []
  | (k, b0) :: rest, c, b => if k = c then (c, b) :: rest else (k, b0) :: bUpd rest c b

/-- `buffers.pop(c, None)` — keys are unique, so dropping all bindings of `c`
coincides with Python's removal. -/
def bErase {M : Type} (bs : List (String × PyBuffer M)) (c : String) :
    List (String × PyBuffer M) :=
  bs.filter (fun kv => !(kv.1 == c))

/-- Remove the first occurrence of a watcher entry (one task ends). -/
def wRemove (c : String) (p : WPhase) : List (String × WPhase) → List (String × WPhase)
  | [] => []
  | q :: rest => if q = (c, p) then rest else q :: wRemove c p rest

/-- `active_processors.pop(c, None)` — marker keys are unique. -/
def aErase (a : List String) (c : String) : List String :=
  a.filter (fun x => !(x == c))

/-- `" ".join(messages)`. -/
def joinSpace (msgs : List String) : String :=
  String.intercalate " " msgs

/-- Scheduler events (one asyncio interleaving). -/
inductive BufEv (M : Type) where
  | add (c msg : String) (meta : M)
  | wake (c : String)
  | finish (c : String)
  | finishErr (c : String)
  | clear (c : String)
  | tick (n : Nat)
deriving DecidableEq, Repr

/-- One atomic scheduler step. `delay` is `self.delay` in tenths of a
second. -/
def step {M : Type} (delay : Nat) (e : BufEv M) (s : BufState M) : BufState M :=
  match e with
  | .add c m meta =>
    match bFind s.buffers c with
    | some b =>
      { s with
        buffers := bUpd s.buffers c
          { b with messages := b.messages ++ [m], lastUpdate := s.now } }
    | none =>
      let s1 :=
        { s with
          buffers :=
            (c, { messages := [m], metadata := meta, createdAt := s.now,
                  lastUpdate := s.now }) :: s.buffers }
      if c ∈ s1.active then s1
      else
        { s1 with active := c :: s1.active,
                  watchers := (c, WPhase.waiting) :: s1.watchers }
  | .wake c =>
    if (c, WPhase.waiting) ∈ s.watchers then
      match bFind s.buffers c with
      | none =>
        { s with watchers := wRemove c WPhase.waiting s.watchers,
                 active := aErase s.active c }
      | some b =>
        if s.now + 1 ≥ b.lastUpdate + delay then
          { s with
            buffers := bErase s.buffers c,
            delivered := s.delivered ++
              [{ cust := c, msgs := b.messages,
                 combined := joinSpace b.messages, meta := b.metadata }],
            watchers := (c, WPhase.calling) :: wRemove c WPhase.waiting s.watchers }
        else s
    else s
  | .finish c =>
    if (c, WPhase.calling) ∈ s.watchers then
      { s with watchers := wRemove c WPhase.calling s.watchers,
               active := aErase s.active c }
    else s
  | .finishErr c =>
    if (c, WPhase.calling) ∈ s.watchers then
      { s with buffers := bErase s.buffers c,
               watchers := wRemove c WPhase.calling s.watchers,
               active := aErase s.active c }
    else s
  | .clear c =>
    { s with buffers := bErase s.buffers c, active := aErase s.active c }
  | .tick n => { s with now := s.now + n }

/-- The empty scheduler of `MessageBuffer.__init__`. -/
def initBuf {M : Type} : BufState M :=
  { now := 0, buffers := [], active := [], watchers := [], delivered := [] }

/-- Run an event sequence from the initial state. -/
def runBuf {M : Type} (delay : Nat) (evs : List (BufEv M)) : BufState M :=
  evs.foldl (fun s e => step delay e s) initBuf

/-- The live watcher tasks of customer `c`. -/
def wFor (w : List (String × WPhase)) (c : String) : List WPhase :=
  w.filterMap (fun p => if p.1 = c then some p.2 else none)

/-- The buffered messages of customer `c` (empty when no buffer exists). -/
def bufMsgs {M : Type} (s : BufState M) (c : String) : List String :=
  match bFind s.buffers c with
  | some b => b.messages
  | none => []

/-- The handler invocations performed for customer `c`, in order. -/
def deliveredFor {M : Type} (s : BufState M) (c : String) : List (Delivery M) :=
  s.delivered.filter (fun d => d.cust == c)

/-- The messages accepted by `add_message` for customer `c` in an event
sequence, in arrival order. -/
def addedFor {M : Type} (c : String) (evs : List (BufEv M)) : List String :=
  evs.filterMap fun e =>
    match e with
    | .add c' m _ => if c' = c then some m else none
    | _ => none

/-- No `clear` call occurs in the sequence. -/
def NoClear {M : Type} (evs : List (BufEv M)) : Prop :=
  (evs.all fun e =>
    match e with
    | .clear _ => false
    | _ => true) = true

/-- No callback raises in the sequence. -/
def NoErr {M : Type} (evs : List (BufEv M)) : Prop :=
  (evs.all fun e =>
    match e with
    | .finishErr _ => false
    | _ => true) = true

instance {M : Type} (evs : List (BufEv M)) : Decidable (NoClear evs) := by
  unfold NoClear
  infer_instance

instance {M : Type} (evs : List (BufEv M)) : Decidable (NoErr evs) := by
  unfold NoErr
  infer_instance

/-! ## Shared concrete objects for the closed theorems -/

/-- A fixed oracle instantiation for closed evaluations: no issue detected,
everything resolved, no new issue, constant generated text. -/
def stubOracle : Oracle :=
  { hasIssue := fun _ => some (false, none),
    resolved := fun _ => some true,
    newIssue := fun _ => some false,
    generate := fun _ _ => "(generated reply)" }

/-- The default `QiscusService` configuration (`TAG_ID_AI_ESCALATED = "0"`,
`TAG_EXPIRY_DAYS = 2`). -/
def sampleCfg : QiscusCfg := { tagIdEscalated := "0", tagExpiryDays := 2 }

/-- Webhook metadata with a real room. -/
def sampleMeta : Meta := { customerName := some "Budi", roomId := some "room1" }

/-- A session awaiting report confirmation. -/
def confirmSession : PySession :=
  { state := some "confirm_data", collectedData := some [], messageCount := some 3 }

/-- An escalation tag created at epoch 0 (expired at `now = 10` days). -/
def expiredSampleTag : QTag :=
  { id := "55", name := "Direspon AI", roomTagCreated := some 0 }

/-- An escalation tag created at day 9 (fresh at `now = 10` days). -/
def freshSampleTag : QTag :=
  { id := "55", name := "Direspon AI", roomTagCreated := some (9 * 86400) }

/-- The end-to-end form-submission message of the spec's scenario. -/
def formMessage : String := "ID: C650AD\nGangguan: internet mati dari pagi"

/-- A session in the form-collection state. -/
def formSession : PySession :=
  { state := some "collect_form", collectedData := some [], messageCount := some 0 }

/-! ## Dictionary lemmas -/

theorem dget_dset_self (d : CDict) (k : String) (v : CVal) :
    dget (dset d k v) k = some v := by
  induction d with
  | nil => simp [dget, dset]
  | cons kv rest ih =>
    obtain ⟨k0, v0⟩ := kv
    by_cases h : k0 = k
    · simp [dget, dset, h]
    · simp [dget, dset, h, ih]

theorem dget_dset_ne (d : CDict) (k k' : String) (v : CVal) (h : k ≠ k') :
    dget (dset d k v) k' = dget d k' := by
  induction d with
  | nil => simp [dget, dset, h]
  | cons kv rest ih =>
    obtain ⟨k0, v0⟩ := kv
    by_cases h0 : k0 = k
    · subst h0
      simp [dget, dset, h]
    · simp [dget, dset, h0, ih]

/-! ## Engine claims -/

/-- C10: the acknowledgment classifier is *not* total — on the non-empty
message `"!!!"` normalization yields an empty word list and `words[0]`
raises `IndexError` (`none`), and the exception escapes
`process_buffered_message` (here: `crashed = true`), refuting the claim that
the classifier always returns a boolean and never raises. -/
theorem punctuation_message_raises :
    isAcknowledgment "!!!" = none ∧
    (processBufferedMessage sampleCfg stubOracle 0 "T0" "cust" sampleMeta "!!!"
        none []).crashed = true := by
  constructor
  · decide
  · decide

/-- C4: on an affirmative confirmation of the report summary (state
`confirm_data`, message `"betul"`), the engine takes the transition to
`completed` and returns `report_created = True`, but it never sets the
`"ai_stop"` key the caller checks, so the result does not signal stop: the
caller never tags the room (`marked = []`) and sends the normal reply instead
of suppressing it — contradicting the claim that stop is signalled exactly on
this transition. -/
theorem confirm_yes_never_signals_stop :
    (processBufferedMessage sampleCfg stubOracle 0 "T0" "cust" sampleMeta "betul"
        (some confirmSession) []).aiResult.map
        (fun r => (r.reportCreated, r.aiStop, r.session.state)) =
      some (true, false, some stateCompleted) ∧
    (processBufferedMessage sampleCfg stubOracle 0 "T0" "cust" sampleMeta "betul"
        (some confirmSession) []).marked = [] ∧
    (processBufferedMessage sampleCfg stubOracle 0 "T0" "cust" sampleMeta "betul"
        (some confirmSession) []).sent = [("room1", reportSentReply)] := by
  refine ⟨?_, ?_, ?_⟩ <;> decide

/-- C9: in the form-collection state, the message
`"ID: C650AD\nGangguan: internet mati dari pagi"` extracts id `C650AD` and
description `internet mati dari pagi`, stores both in `collected_data`, and
moves the session to the validating state — for every oracle (this path never
consults it) and every timestamp. -/
theorem form_extraction_to_validating (o : Oracle) (nowIso : String) :
    ∃ r, processMessage o nowIso "cust" "Budi" formMessage formSession = some r ∧
      r.session.state = some stateValidatingCustomer ∧
      dget (r.session.collectedData.getD []) "customer_references_number" =
        some (.str "C650AD") ∧
      dget (r.session.collectedData.getD []) "description" =
        some (.str "internet mati dari pagi") ∧
      r.session.messageCount = some 1 := by
  refine ⟨_, rfl, rfl, ?_, ?_, rfl⟩ <;> rfl

/-- `_handle_greeting` always returns state `greeting` or `check_resolved`. -/
theorem handleGreeting_state (o : Oracle) (message : String) (cd : CDict) :
    (handleGreeting o message cd).session.state = some stateGreeting ∨
    (handleGreeting o message cd).session.state = some stateCheckResolved := by
  rcases ho : o.hasIssue message with _ | ⟨b, so⟩
  · left
    simp [handleGreeting, ho, plainResult]
  · cases b
    · left
      simp [handleGreeting, ho, plainResult]
    · right
      simp [handleGreeting, ho, plainResult]

/-- C5 (counterexample): the default session state `"detect"` is outside the
engine's declared state set, and `process_message` does *not* return it
unchanged — it routes to the greeting handler and returns state
`"greeting"`. -/
theorem unknown_state_not_preserved :
    defaultSession.state = some "detect" ∧
    "detect" ∉ handledStates ∧
    (processMessage stubOracle "T0" "cust" "Budi" "halo" defaultSession).map
        (fun r => r.session.state) = some (some "greeting") := by
  refine ⟨rfl, by decide, by decide⟩

/-- C5 (amended): for every session whose state lies outside the declared
state set, `process_message` never crashes; it routes the message to the
greeting handler with empty collected data and returns state `greeting` (or
`check_resolved` when the oracle detects an issue), with the incremented
message count — not the unchanged input state. -/
theorem unknown_state_routes_to_greeting (o : Oracle)
    (nowIso customerId customerName message : String) (session : PySession)
    (h : session.state.getD stateGreeting ∉ handledStates) :
    ∃ r, processMessage o nowIso customerId customerName message session = some r ∧
      (r.session.state = some stateGreeting ∨
        r.session.state = some stateCheckResolved) ∧
      r.session.messageCount = some (session.messageCount.getD 0 + 1) := by
  simp only [handledStates, List.mem_cons, List.not_mem_nil, or_false, not_or] at h
  obtain ⟨h1, h2, h3, h4, h5, h6⟩ := h
  unfold processMessage
  simp only [if_neg h1, if_neg h2, if_neg h3, if_neg h4, if_neg h5, if_neg h6]
  refine ⟨_, rfl, ?_, rfl⟩
  exact handleGreeting_state o message []

/-- C5 witness: the amended theorem applied at the concrete default session. -/
theorem unknown_state_routes_to_greeting_witness :
    ∃ r, processMessage stubOracle "T0" "cust" "Budi" "halo" defaultSession =
        some r ∧
      (r.session.state = some stateGreeting ∨
        r.session.state = some stateCheckResolved) ∧
      r.session.messageCount = some (defaultSession.messageCount.getD 0 + 1) :=
  unknown_state_routes_to_greeting stubOracle "T0" "cust" "Budi" "halo"
    defaultSession (by decide)

/-! ## Overlay claims -/

/-- A metadata dict holding room id `rid ≠ ""` makes `room_id` truthy. -/
theorem roomTruthy_eq_true (meta : Meta) (rid : String)
    (hroom : meta.roomId = some rid) (hrid : rid ≠ "") :
    roomTruthy meta = true := by
  simp [roomTruthy, hroom, hrid]

/-- C8: for every session, configuration, oracle and tag state, a message the
classifier marks as an acknowledgment gets exactly the fixed reply
`"Siap kak!"`; the ConversationEngine is never invoked and the stored session
(state, collected data and message count alike) is never written. -/
theorem ack_bypass_fixed_reply (cfg : QiscusCfg) (o : Oracle) (now : Nat)
    (nowIso customerId : String) (meta : Meta) (message : String)
    (stored : Option PySession) (tags : List QTag) (rid : String)
    (hack : isAcknowledgment message = some true)
    (hroom : meta.roomId = some rid) (hrid : rid ≠ "") :
    processBufferedMessage cfg o now nowIso customerId meta message stored tags =
      { sent := [(rid, "Siap kak!")], removedTags := [], marked := [],
        sessionWrites := [], aiCalls := [], aiResult := none,
        crashed := false } := by
  have hr : roomTruthy meta = true := roomTruthy_eq_true meta rid hroom hrid
  unfold processBufferedMessage
  rw [hack]
  simp [hr, hroom]

/-- C8 witness: the theorem applied at the input `"siap"` with an arbitrary
stored session. -/
theorem ack_bypass_fixed_reply_witness :
    processBufferedMessage sampleCfg stubOracle 0 "T0" "cust" sampleMeta "siap"
        (some confirmSession) [] =
      { sent := [("room1", "Siap kak!")], removedTags := [], marked := [],
        sessionWrites := [], aiCalls := [], aiResult := none,
        crashed := false } :=
  ack_bypass_fixed_reply sampleCfg stubOracle 0 "T0" "cust" sampleMeta "siap"
    (some confirmSession) [] "room1" (by decide) rfl (by decide)

/-- C6 (counterexample): with the escalation tag expired, the acknowledgment
message `"ok"` does *not* cause tag removal or a session reset — the
acknowledgment bypass runs before the tag check and terminates processing —
refuting "regardless of the message's content". -/
theorem expired_tag_kept_on_ack_message :
    checkEscalatedTag sampleCfg (10 * 86400) [expiredSampleTag] =
      (true, true, some "55") ∧
    isAcknowledgment "ok" = some true ∧
    (processBufferedMessage sampleCfg stubOracle (10 * 86400) "T0" "cust"
        sampleMeta "ok" none [expiredSampleTag]).removedTags = [] ∧
    (processBufferedMessage sampleCfg stubOracle (10 * 86400) "T0" "cust"
        sampleMeta "ok" none [expiredSampleTag]).sessionWrites = [] := by
  refine ⟨by decide, by decide, by decide, by decide⟩

/-- C6 (amended): for every coalesced message that the acknowledgment
classifier rejects, an expired escalation tag is removed and the first
session write is the reset `{"state": "detect", "message_count": 0}`, after
which the engine is invoked on the reset session — regardless of whether the
message relates to the report. -/
theorem expired_tag_removed_for_nonack (cfg : QiscusCfg) (o : Oracle) (now : Nat)
    (nowIso customerId : String) (meta : Meta) (message : String)
    (stored : Option PySession) (tags : List QTag) (rid tid : String)
    (hack : isAcknowledgment message = some false)
    (hroom : meta.roomId = some rid) (hrid : rid ≠ "")
    (htag : checkEscalatedTag cfg now tags = (true, true, some tid))
    (htid : tid ≠ "") :
    (processBufferedMessage cfg o now nowIso customerId meta message stored
        tags).removedTags = [(rid, tid)] ∧
    (processBufferedMessage cfg o now nowIso customerId meta message stored
        tags).sessionWrites.head? = some (customerId, resetSession) ∧
    (processBufferedMessage cfg o now nowIso customerId meta message stored
        tags).aiCalls = [resetSession] := by
  have hr : roomTruthy meta = true := roomTruthy_eq_true meta rid hroom hrid
  unfold processBufferedMessage
  rw [hack]
  simp only [hr, if_pos rfl, htag, hroom]
  simp [htid]
  rcases hpm : processMessage o nowIso customerId (meta.customerName.getD "Customer")
      message resetSession with _ | air
  · simp [hpm]
  · by_cases hstop : air.aiStop
    · simp [hpm, hstop]
    · simp [hpm, hstop]

/-- C6 witness: the amended theorem applied at the non-acknowledgment message
`"halo kak"` with an expired tag. -/
theorem expired_tag_removed_for_nonack_witness :
    (processBufferedMessage sampleCfg stubOracle (10 * 86400) "T0" "cust"
        sampleMeta "halo kak" none [expiredSampleTag]).removedTags =
      [("room1", "55")] ∧
    (processBufferedMessage sampleCfg stubOracle (10 * 86400) "T0" "cust"
        sampleMeta "halo kak" none [expiredSampleTag]).sessionWrites.head? =
      some ("cust", resetSession) ∧
    (processBufferedMessage sampleCfg stubOracle (10 * 86400) "T0" "cust"
        sampleMeta "halo kak" none [expiredSampleTag]).aiCalls =
      [resetSession] :=
  expired_tag_removed_for_nonack sampleCfg stubOracle (10 * 86400) "T0" "cust"
    sampleMeta "halo kak" none [expiredSampleTag] "room1" "55" (by decide) rfl
    (by decide) (by decide) (by decide)

/-- C7 (counterexample): with the escalation tag present and fresh, the
message `"sudah"` *is* report-related by the classifier, yet the fixed
pending-report reply is not sent — the acknowledgment bypass fires first and
replies `"Siap kak!"` — refuting the claim as stated. -/
theorem fresh_tag_ack_precedence :
    checkEscalatedTag sampleCfg (10 * 86400) [freshSampleTag] =
      (true, false, some "55") ∧
    isComplaintOrReportRelated "sudah" = true ∧
    (processBufferedMessage sampleCfg stubOracle (10 * 86400) "T0" "cust"
        sampleMeta "sudah" none [freshSampleTag]).sent =
      [("room1", "Siap kak!")] ∧
    (processBufferedMessage sampleCfg stubOracle (10 * 86400) "T0" "cust"
        sampleMeta "sudah" none [freshSampleTag]).aiCalls = [] := by
  refine ⟨by decide, by decide, by decide, by decide⟩

/-- C7 (amended): when the escalation tag is present and not expired and the
message is not classified as an acknowledgment (the bypass runs first): a
report-related message gets exactly the fixed pending-report reply with no
engine call and no session write, while any other message falls through to
the engine with `collected_data["has_pending_report"] = true` and the tag is
left in place. -/
theorem fresh_tag_interception_for_nonack (cfg : QiscusCfg) (o : Oracle)
    (now : Nat) (nowIso customerId : String) (meta : Meta) (message : String)
    (stored : Option PySession) (tags : List QTag) (rid tid : String)
    (hack : isAcknowledgment message = some false)
    (hroom : meta.roomId = some rid) (hrid : rid ≠ "")
    (htag : checkEscalatedTag cfg now tags = (true, false, some tid)) :
    (isComplaintOrReportRelated message = true →
      processBufferedMessage cfg o now nowIso customerId meta message stored tags =
        { sent := [(rid, pendingReportReply)], removedTags := [], marked := [],
          sessionWrites := [], aiCalls := [], aiResult := none,
          crashed := false }) ∧
    (isComplaintOrReportRelated message = false →
      (processBufferedMessage cfg o now nowIso customerId meta message stored
          tags).aiCalls =
        [{ getSession stored with
            collectedData := some (dset ((getSession stored).collectedData.getD [])
              "has_pending_report" (.flag true)) }] ∧
      (processBufferedMessage cfg o now nowIso customerId meta message stored
          tags).removedTags = []) := by
  have hr : roomTruthy meta = true := roomTruthy_eq_true meta rid hroom hrid
  constructor
  · intro hrel
    unfold processBufferedMessage
    rw [hack]
    simp only [hr, if_pos rfl, htag, hroom]
    simp [hrel]
  · intro hrel
    unfold processBufferedMessage
    rw [hack]
    simp only [hr, if_pos rfl, htag, hroom]
    set s2 := { getSession stored with
        collectedData := some (dset ((getSession stored).collectedData.getD [])
          "has_pending_report" (.flag true)) } with hs2
    simp [hrel]
    rcases hpm : processMessage o nowIso customerId (meta.customerName.getD "Customer")
        message s2 with _ | air
    · simp [hpm]
    · by_cases hstop : air.aiStop
      · simp [hpm, hstop]
      · simp [hpm, hstop]

/-- C7 witness: the amended theorem applied at the report-related
non-acknowledgment message `"internet masih mati"` with a fresh tag. -/
theorem fresh_tag_interception_for_nonack_witness :
    (isComplaintOrReportRelated "internet masih mati" = true →
      processBufferedMessage sampleCfg stubOracle (10 * 86400) "T0" "cust"
          sampleMeta "internet masih mati" none [freshSampleTag] =
        { sent := [("room1", pendingReportReply)], removedTags := [],
          marked := [], sessionWrites := [], aiCalls := [], aiResult := none,
          crashed := false }) ∧
    (isComplaintOrReportRelated "internet masih mati" = false →
      (processBufferedMessage sampleCfg stubOracle (10 * 86400) "T0" "cust"
          sampleMeta "internet masih mati" none [freshSampleTag]).aiCalls =
        [{ getSession none with
            collectedData := some (dset ((getSession none).collectedData.getD [])
              "has_pending_report" (.flag true)) }] ∧
      (processBufferedMessage sampleCfg stubOracle (10 * 86400) "T0" "cust"
          sampleMeta "internet masih mati" none [freshSampleTag]).removedTags =
        []) :=
  fresh_tag_interception_for_nonack sampleCfg stubOracle (10 * 86400) "T0"
    "cust" sampleMeta "internet masih mati" none [freshSampleTag] "room1" "55"
    (by decide) rfl (by decide) (by decide)

theorem wFor_cons (k : String) (p : WPhase) (w : List (String × WPhase))
    (c : String) :
    wFor ((k, p) :: w) c = if k = c then p :: wFor w c else wFor w c := by
  by_cases h : k = c <;> simp [wFor, List.filterMap_cons, h]

theorem wFor_mem_iff (w : List (String × WPhase)) (c : String) (p : WPhase) :
    p ∈ wFor w c ↔ (c, p) ∈ w := by
  induction w with
  | nil => simp [wFor]
  | cons q rest ih =>
    obtain ⟨k, p0⟩ := q
    by_cases h : k = c
    · subst h
      rw [wFor_cons]
      simp [ih]
    · rw [wFor_cons]
      simp [h, ih, Prod.ext_iff]
      intro hc
      exact absurd hc.symm h

theorem wFor_wRemove (c : String) (p : WPhase) (w : List (String × WPhase))
    (c' : String) :
    wFor (wRemove c p w) c' =
      if c' = c then (wFor w c).erase p else wFor w c' := by
  induction w with
  | nil => by_cases h : c' = c <;> simp [wFor, wRemove, h]
  | cons q rest ih =>
    obtain ⟨k, p0⟩ := q
    unfold wRemove
    by_cases hq : (k, p0) = (c, p)
    · rw [if_pos hq]
      have hk : k = c := congrArg Prod.fst hq
      have hp : p0 = p := congrArg Prod.snd hq
      by_cases h : c' = c
      · rw [if_pos h, wFor_cons, if_pos hk, hp, List.erase_cons_head, h]
      · rw [if_neg h, wFor_cons,
          if_neg (fun hh : k = c' => h (hh.symm.trans hk))]
    · rw [if_neg hq, wFor_cons, wFor_cons, wFor_cons]
      by_cases h : c' = c
      · by_cases hk : k = c'
        · have hk2 : k = c := hk.trans h
          have hp : p0 ≠ p := fun hpp => hq (by rw [hk2, hpp])
          simp only [if_pos h, if_pos hk, if_pos hk2, ih]
          simp [List.erase_cons, hp]
        · have hk2 : k ≠ c := fun hh => hk (hh.trans h.symm)
          simp only [if_pos h, if_neg hk, if_neg hk2, ih]
      · by_cases hk : k = c'
        · simp only [if_neg h, if_pos hk, ih]
        · simp only [if_neg h, if_neg hk, ih]

theorem mem_aErase (a : List String) (c c' : String) :
    c' ∈ aErase a c ↔ c' ∈ a ∧ c' ≠ c := by
  simp [aErase, List.mem_filter]

theorem bFind_bUpd {M : Type} (bs : List (String × PyBuffer M)) (c : String)
    (b : PyBuffer M) (c' : String) :
    bFind (bUpd bs c b) c' =
      if c' = c then (bFind bs c).map (fun _ => b) else bFind bs c' := by
  induction bs with
  | nil => by_cases h : c' = c <;> simp [bFind, bUpd, h]
  | cons kv rest ih =>
    obtain ⟨k, b0⟩ := kv
    by_cases hk : k = c
    · subst hk
      simp only [bUpd, if_pos rfl]
      by_cases h : c' = k
      · subst h
        simp [bFind]
      · simp [bFind, h, show ¬k = c' from fun hh => h hh.symm]
    · simp only [bUpd, if_neg hk]
      by_cases hkc : k = c'
      · subst hkc
        simp [bFind, hk, show ¬k = c from hk]
      · simp [bFind, hkc, hk, ih]

theorem bFind_bErase {M : Type} (bs : List (String × PyBuffer M))
    (c c' : String) :
    bFind (bErase bs c) c' = if c' = c then none else bFind bs c' := by
  induction bs with
  | nil => by_cases h : c' = c <;> simp [bFind, bErase, h]
  | cons kv rest ih =>
    obtain ⟨k, b0⟩ := kv
    unfold bErase at ih ⊢
    by_cases hk : k = c
    · have hp : (!((k, b0).1 == c)) = false := by simp [hk]
      rw [List.filter_cons, hp]
      simp only [Bool.false_eq_true, if_false]
      rw [ih]
      by_cases h : c' = c
      · simp [h]
      · simp [h, bFind, show ¬k = c' from fun hh => h (hh.symm.trans hk)]
    · have hp : (!((k, b0).1 == c)) = true := by simp [hk]
      rw [List.filter_cons, hp]
      simp only [if_true]
      by_cases hkc : k = c'
      · subst hkc
        simp [bFind, hk]
      · simp [bFind, hkc, ih]

example (l : List WPhase) (a : WPhase) : (l.erase a).length ≤ l.length :=
  List.length_erase_le a l

theorem eq_singleton_of_mem_of_length_le {α : Type} (l : List α) (a : α)
    (hm : a ∈ l) (hl : l.length ≤ 1) : l = [a] := by
  cases l with
  | nil => simp at hm
  | cons x rest =>
    cases rest with
    | nil =>
      simp at hm
      rw [hm]
    | cons y t => simp at hl

/-- The single-watcher invariant: per customer at most one live watcher task,
and a live watcher implies the `active_processors` marker is held. -/
def WatcherInv {M : Type} (s : BufState M) : Prop :=
  ∀ c, (wFor s.watchers c).length ≤ 1 ∧
    (wFor s.watchers c ≠ [] → c ∈ s.active)

theorem watcherInv_remove_aux {M : Type} (s : BufState M) (c : String)
    (p : WPhase) (h : WatcherInv s) (hmem : (c, p) ∈ s.watchers) (c' : String) :
    (wFor (wRemove c p s.watchers) c').length ≤ 1 ∧
    (wFor (wRemove c p s.watchers) c' ≠ [] → c' ∈ aErase s.active c) := by
  constructor
  · rw [wFor_wRemove]
    by_cases hc : c' = c
    · rw [if_pos hc]
      exact le_trans (List.length_erase_le _ _) (h c).1
    · rw [if_neg hc]
      exact (h c').1
  · rw [wFor_wRemove]
    by_cases hc : c' = c
    · rw [if_pos hc]
      intro hne
      have hsing : wFor s.watchers c = [p] :=
        eq_singleton_of_mem_of_length_le _ _ ((wFor_mem_iff _ _ _).mpr hmem)
          (h c).1
      rw [hsing, List.erase_cons_head] at hne
      exact absurd rfl hne
    · rw [if_neg hc]
      intro hne
      exact (mem_aErase _ _ _).mpr ⟨(h c').2 hne, hc⟩

theorem watcherInv_step {M : Type} (delay : Nat) (e : BufEv M) (s : BufState M)
    (hcl : ∀ c, e ≠ .clear c) (h : WatcherInv s) :
    WatcherInv (step delay e s) := by
  cases e with
  | add c m meta =>
    unfold step
    dsimp only
    rcases hb : bFind s.buffers c with _ | b
    · dsimp only
      by_cases ha : c ∈ s.active
      · rw [if_pos ha]
        exact fun c' => h c'
      · rw [if_neg ha]
        intro c'
        constructor
        · rw [wFor_cons]
          by_cases hc : c = c'
          · rw [if_pos hc]
            have hnil : wFor s.watchers c' = [] := by
              by_contra hne
              exact ha (hc ▸ (h c').2 hne)
            rw [hnil]
            simp
          · rw [if_neg hc]
            exact (h c').1
        · rw [wFor_cons]
          by_cases hc : c = c'
          · intro _
            exact hc ▸ List.mem_cons_self c s.active
          · rw [if_neg hc]
            intro hne
            exact List.mem_cons_of_mem _ ((h c').2 hne)
    · exact fun c' => h c'
  | wake c =>
    unfold step
    dsimp only
    by_cases hw : (c, WPhase.waiting) ∈ s.watchers
    · rw [if_pos hw]
      rcases hb : bFind s.buffers c with _ | b
      · exact fun c' => watcherInv_remove_aux s c WPhase.waiting h hw c'
      · dsimp only
        by_cases ht : s.now + 1 ≥ b.lastUpdate + delay
        · rw [if_pos ht]
          intro c'
          have hsing : wFor s.watchers c = [WPhase.waiting] :=
            eq_singleton_of_mem_of_length_le _ _ ((wFor_mem_iff _ _ _).mpr hw)
              (h c).1
          constructor
          · rw [wFor_cons]
            by_cases hc : c = c'
            · rw [if_pos hc, wFor_wRemove, if_pos hc.symm, hsing,
                List.erase_cons_head]
              simp
            · rw [if_neg hc, wFor_wRemove,
                if_neg (fun hh : c' = c => hc hh.symm)]
              exact (h c').1
          · rw [wFor_cons]
            by_cases hc : c = c'
            · intro _
              have hne : wFor s.watchers c ≠ [] := by
                rw [hsing]
                exact List.cons_ne_nil _ _
              exact hc ▸ (h c).2 hne
            · rw [if_neg hc, wFor_wRemove,
                if_neg (fun hh : c' = c => hc hh.symm)]
              exact (h c').2
        · rw [if_neg ht]
          exact h
    · rw [if_neg hw]
      exact h
  | finish c =>
    unfold step
    dsimp only
    by_cases hw : (c, WPhase.calling) ∈ s.watchers
    · rw [if_pos hw]
      exact fun c' => watcherInv_remove_aux s c WPhase.calling h hw c'
    · rw [if_neg hw]
      exact h
  | finishErr c =>
    unfold step
    dsimp only
    by_cases hw : (c, WPhase.calling) ∈ s.watchers
    · rw [if_pos hw]
      exact fun c' => watcherInv_remove_aux s c WPhase.calling h hw c'
    · rw [if_neg hw]
      exact h
  | clear c => exact absurd rfl (hcl c)
  | tick n => exact h

theorem noClear_cons {M : Type} (e : BufEv M) (rest : List (BufEv M))
    (h : NoClear (e :: rest)) : (∀ c, e ≠ BufEv.clear c) ∧ NoClear rest := by
  unfold NoClear at h ⊢
  rw [List.all_cons, Bool.and_eq_true] at h
  refine ⟨?_, h.2⟩
  intro c he
  rw [he] at h
  exact absurd h.1 (by simp)

theorem watcherInv_foldl {M : Type} (delay : Nat) (evs : List (BufEv M))
    (s : BufState M) (hs : WatcherInv s) (h : NoClear evs) :
    WatcherInv (evs.foldl (fun s e => step delay e s) s) := by
  induction evs generalizing s with
  | nil => exact hs
  | cons e rest ih =>
    obtain ⟨hcl, hrest⟩ := noClear_cons e rest h
    exact ih (step delay e s) (watcherInv_step delay e s hcl hs) hrest

theorem watcherInv_init {M : Type} : WatcherInv (initBuf (M := M)) := by
  intro c
  constructor
  · simp [initBuf, wFor]
  · intro hne
    simp [initBuf, wFor] at hne

/-- A burst of three messages in one quiet window, flushed once. -/
def burstTrace : List (BufEv Nat) :=
  [.add "c" "Halo" 1, .tick 10, .add "c" "internet mati" 1, .tick 10,
   .add "c" "gimana nih" 1, .tick 30, .wake "c", .finish "c"]

/-- `add_message`; `clear`; `add_message` — the smallest schedule on which
`clear` leaks a watcher. -/
def clearTrace : List (BufEv Nat) :=
  [.add "c" "m1" 0, .clear "c", .add "c" "m2" 0]

/-- C1 (counterexample): `clear` removes the `active_processors` marker
without cancelling the running watcher task, so the very next `add_message`
starts a second watcher while the first is still alive: after
`add; clear; add` two watcher tasks for the same customer id exist at once,
refuting the claim for sequences that include `clear`. -/
theorem clear_spawns_second_watcher :
    (wFor (runBuf 30 clearTrace).watchers "c").length = 2 := by decide

/-- C1 (amended): in every schedule **without** `clear` calls, at most one
watcher task per customer id is ever alive, and any live watcher still holds
the `active_processors` marker — so a new watcher cannot start (`add_message`
spawns only when the marker is free) before the prior one has released it. -/
theorem single_watcher_without_clear {M : Type} (delay : Nat)
    (evs : List (BufEv M)) (c : String) (h : NoClear evs) :
    (wFor (runBuf delay evs).watchers c).length ≤ 1 ∧
    (wFor (runBuf delay evs).watchers c ≠ [] → c ∈ (runBuf delay evs).active) :=
  watcherInv_foldl delay evs initBuf watcherInv_init h c

/-- C1 witness: the amended theorem applied to a concrete three-message
burst schedule. -/
theorem single_watcher_without_clear_witness :
    (wFor (runBuf 30 burstTrace).watchers "c").length ≤ 1 ∧
    (wFor (runBuf 30 burstTrace).watchers "c" ≠ [] →
      "c" ∈ (runBuf 30 burstTrace).active) :=
  single_watcher_without_clear 30 burstTrace "c" (by decide)

theorem bFind_cons_ne {M : Type} (k c : String) (b : PyBuffer M)
    (bs : List (String × PyBuffer M)) (h : k ≠ c) :
    bFind ((k, b) :: bs) c = bFind bs c := by
  simp [bFind, h]

theorem stuck_preserved {M : Type} (delay : Nat) (c : String) (e : BufEv M)
    (s : BufState M) (hcl : ∀ c', e ≠ .clear c')
    (hbuf : bFind s.buffers c ≠ none) (hw : wFor s.watchers c = [])
    (ha : c ∉ s.active) :
    bFind (step delay e s).buffers c ≠ none ∧
    wFor (step delay e s).watchers c = [] ∧
    c ∉ (step delay e s).active ∧
    deliveredFor (step delay e s) c = deliveredFor s c ∧
    bufMsgs s c <+: bufMsgs (step delay e s) c := by
  cases e with
  | add c' m meta =>
    unfold step
    dsimp only
    by_cases hc : c' = c
    · subst hc
      rcases hb : bFind s.buffers c' with _ | b
      · exact absurd hb hbuf
      · dsimp only
        refine ⟨?_, hw, ha, rfl, ?_⟩
        · rw [bFind_bUpd, if_pos rfl, hb]
          simp
        · unfold bufMsgs
          rw [bFind_bUpd, if_pos rfl, hb]
          simp [List.prefix_append]
    · rcases hb : bFind s.buffers c' with _ | b
      · dsimp only
        by_cases hact : c' ∈ s.active
        · rw [if_pos hact]
          refine ⟨?_, hw, ha, rfl, ?_⟩
          · unfold bFind
            rw [if_neg hc]
            exact hbuf
          · unfold bufMsgs
            rw [bFind_cons_ne _ _ _ _ hc]
        · rw [if_neg hact]
          refine ⟨?_, ?_, ?_, rfl, ?_⟩
          · unfold bFind
            rw [if_neg hc]
            exact hbuf
          · rw [wFor_cons, if_neg hc]
            exact hw
          · intro hmem
            rcases List.mem_cons.mp hmem with h1 | h2
            · exact hc h1.symm
            · exact ha h2
          · unfold bufMsgs
            rw [bFind_cons_ne _ _ _ _ hc]
      · dsimp only
        refine ⟨?_, hw, ha, rfl, ?_⟩
        · rw [bFind_bUpd, if_neg (fun hh : c = c' => hc hh.symm)]
          exact hbuf
        · unfold bufMsgs
          rw [bFind_bUpd, if_neg (fun hh : c = c' => hc hh.symm)]
  | wake c' =>
    unfold step
    dsimp only
    by_cases hc : c' = c
    · subst hc
      have hnmem : (c', WPhase.waiting) ∉ s.watchers := by
        intro hmem
        have := (wFor_mem_iff s.watchers c' WPhase.waiting).mpr hmem
        rw [hw] at this
        simp at this
      rw [if_neg hnmem]
      exact ⟨hbuf, hw, ha, rfl, List.prefix_refl _⟩
    · by_cases hmem : (c', WPhase.waiting) ∈ s.watchers
      · rw [if_pos hmem]
        rcases hb : bFind s.buffers c' with _ | b
        · dsimp only
          refine ⟨hbuf, ?_, ?_, rfl, List.prefix_refl _⟩
          · rw [wFor_wRemove, if_neg (fun hh : c = c' => hc hh.symm)]
            exact hw
          · intro hmem2
            exact ha ((mem_aErase _ _ _).mp hmem2).1
        · dsimp only
          by_cases ht : s.now + 1 ≥ b.lastUpdate + delay
          · rw [if_pos ht]
            refine ⟨?_, ?_, ha, ?_, ?_⟩
            · rw [bFind_bErase, if_neg (fun hh : c = c' => hc hh.symm)]
              exact hbuf
            · rw [wFor_cons, if_neg hc, wFor_wRemove,
                if_neg (fun hh : c = c' => hc hh.symm)]
              exact hw
            · unfold deliveredFor
              dsimp only
              rw [List.filter_append]
              simp [hc]
            · unfold bufMsgs
              rw [bFind_bErase, if_neg (fun hh : c = c' => hc hh.symm)]
          · rw [if_neg ht]
            exact ⟨hbuf, hw, ha, rfl, List.prefix_refl _⟩
      · rw [if_neg hmem]
        exact ⟨hbuf, hw, ha, rfl, List.prefix_refl _⟩
  | finish c' =>
    unfold step
    dsimp only
    by_cases hc : c' = c
    · subst hc
      have hnmem : (c', WPhase.calling) ∉ s.watchers := by
        intro hmem
        have := (wFor_mem_iff s.watchers c' WPhase.calling).mpr hmem
        rw [hw] at this
        simp at this
      rw [if_neg hnmem]
      exact ⟨hbuf, hw, ha, rfl, List.prefix_refl _⟩
    · by_cases hmem : (c', WPhase.calling) ∈ s.watchers
      · rw [if_pos hmem]
        refine ⟨hbuf, ?_, ?_, rfl, List.prefix_refl _⟩
        · rw [wFor_wRemove, if_neg (fun hh : c = c' => hc hh.symm)]
          exact hw
        · intro hmem2
          exact ha ((mem_aErase _ _ _).mp hmem2).1
      · rw [if_neg hmem]
        exact ⟨hbuf, hw, ha, rfl, List.prefix_refl _⟩
  | finishErr c' =>
    unfold step
    dsimp only
    by_cases hc : c' = c
    · subst hc
      have hnmem : (c', WPhase.calling) ∉ s.watchers := by
        intro hmem
        have := (wFor_mem_iff s.watchers c' WPhase.calling).mpr hmem
        rw [hw] at this
        simp at this
      rw [if_neg hnmem]
      exact ⟨hbuf, hw, ha, rfl, List.prefix_refl _⟩
    · by_cases hmem : (c', WPhase.calling) ∈ s.watchers
      · rw [if_pos hmem]
        refine ⟨?_, ?_, ?_, rfl, ?_⟩
        · rw [bFind_bErase, if_neg (fun hh : c = c' => hc hh.symm)]
          exact hbuf
        · rw [wFor_wRemove, if_neg (fun hh : c = c' => hc hh.symm)]
          exact hw
        · intro hmem2
          exact ha ((mem_aErase _ _ _).mp hmem2).1
        · unfold bufMsgs
          rw [bFind_bErase, if_neg (fun hh : c = c' => hc hh.symm)]
      · rw [if_neg hmem]
        exact ⟨hbuf, hw, ha, rfl, List.prefix_refl _⟩
  | clear c' => exact absurd rfl (hcl c')
  | tick n => exact ⟨hbuf, hw, ha, rfl, List.prefix_refl _⟩

theorem stuck_foldl {M : Type} (delay : Nat) (c : String)
    (tr : List (BufEv M)) (s : BufState M) (h : NoClear tr)
    (hbuf : bFind s.buffers c ≠ none) (hw : wFor s.watchers c = [])
    (ha : c ∉ s.active) :
    bFind (tr.foldl (fun s e => step delay e s) s).buffers c ≠ none ∧
    wFor (tr.foldl (fun s e => step delay e s) s).watchers c = [] ∧
    c ∉ (tr.foldl (fun s e => step delay e s) s).active ∧
    deliveredFor (tr.foldl (fun s e => step delay e s) s) c =
      deliveredFor s c ∧
    bufMsgs s c <+: bufMsgs (tr.foldl (fun s e => step delay e s) s) c := by
  induction tr generalizing s with
  | nil => exact ⟨hbuf, hw, ha, rfl, List.prefix_refl _⟩
  | cons e rest ih =>
    have hcl : ∀ c', e ≠ BufEv.clear c' := by
      intro c' he
      unfold NoClear at h
      rw [List.all_cons, Bool.and_eq_true] at h
      rw [he] at h
      exact absurd h.1 (by simp)
    have hrest : NoClear rest := by
      unfold NoClear at h ⊢
      rw [List.all_cons, Bool.and_eq_true] at h
      exact h.2
    obtain ⟨h1, h2, h3, h4, h5⟩ :=
      stuck_preserved delay c e s hcl hbuf hw ha
    obtain ⟨g1, g2, g3, g4, g5⟩ := ih (step delay e s) hrest h1 h2 h3
    exact ⟨g1, g2, g3, g4.trans h4, h5.trans g5⟩

/-- `add_message` accepting `"m2"` between a flush's buffer pop and its
marker release: the resulting buffer has no watcher. -/
def lostTrace : List (BufEv Nat) :=
  [.add "c" "m1" 7, .tick 30, .wake "c", .add "c" "m2" 7, .finish "c"]

/-- C2: the code can silently drop an accepted message. In the schedule
`lostTrace` the watcher pops the buffer and suspends awaiting the callback;
`add_message` then accepts `"m2"` (creating a fresh buffer while the
`active_processors` marker is still held, so no watcher starts); the watcher
finishes and releases the marker. From then on — under **every** continuation
of `add_message` calls and watcher steps (no `clear`) — the handler is never
invoked again for `"c"`: only the `m1` batch is ever delivered, `"m2"` sits
in a buffer forever, and no watcher exists to flush it. This refutes "never
silently dropped"; delivery of `m1` happened exactly once, so the
at-most-once half is untouched. -/
theorem message_dropped_after_flush_race (tr : List (BufEv Nat))
    (h : NoClear tr) :
    deliveredFor (runBuf 30 (lostTrace ++ tr)) "c" =
      [{ cust := "c", msgs := ["m1"], combined := "m1", meta := 7 }] ∧
    "m2" ∈ bufMsgs (runBuf 30 (lostTrace ++ tr)) "c" ∧
    wFor (runBuf 30 (lostTrace ++ tr)).watchers "c" = [] := by
  have hrun : runBuf 30 (lostTrace ++ tr) =
      tr.foldl (fun s e => step 30 e s) (runBuf 30 lostTrace) := by
    unfold runBuf
    rw [List.foldl_append]
  obtain ⟨g1, g2, g3, g4, g5⟩ :=
    stuck_foldl 30 "c" tr (runBuf 30 lostTrace) h (by decide) (by decide)
      (by decide)
  rw [hrun]
  refine ⟨?_, ?_, g2⟩
  · rw [g4]
    decide
  · exact g5.subset (by decide)

/-- C2 witness: the dropped-message theorem applied to a concrete
continuation in which time passes and the scheduler keeps running. -/
theorem message_dropped_after_flush_race_witness :
    deliveredFor (runBuf 30 (lostTrace ++ [.tick 100, .wake "c"])) "c" =
      [{ cust := "c", msgs := ["m1"], combined := "m1", meta := 7 }] ∧
    "m2" ∈ bufMsgs (runBuf 30 (lostTrace ++ [.tick 100, .wake "c"])) "c" ∧
    wFor (runBuf 30 (lostTrace ++ [.tick 100, .wake "c"])).watchers "c" = [] :=
  message_dropped_after_flush_race [.tick 100, .wake "c"] (by decide)

theorem bFind_cons_self {M : Type} (c : String) (b : PyBuffer M)
    (bs : List (String × PyBuffer M)) : bFind ((c, b) :: bs) c = some b := by
  simp [bFind]

theorem addedFor_cons {M : Type} (c : String) (e : BufEv M)
    (rest : List (BufEv M)) :
    addedFor c (e :: rest) = addedFor c [e] ++ addedFor c rest := by
  unfold addedFor
  rw [List.filterMap_cons, List.filterMap_cons]
  cases e with
  | add c' m meta =>
    by_cases hc : c' = c <;> simp [hc]
  | wake c' => simp
  | finish c' => simp
  | finishErr c' => simp
  | clear c' => simp
  | tick n => simp

theorem conserv_step {M : Type} (delay : Nat) (c : String) (e : BufEv M)
    (s : BufState M) (hcl : ∀ c', e ≠ .clear c')
    (herr : ∀ c', e ≠ .finishErr c') :
    ((deliveredFor (step delay e s) c).map Delivery.msgs).flatten ++
        bufMsgs (step delay e s) c =
      (((deliveredFor s c).map Delivery.msgs).flatten ++ bufMsgs s c) ++
        addedFor c [e] := by
  cases e with
  | add c' m meta =>
    unfold step
    dsimp only
    by_cases hc : c' = c
    · subst hc
      rcases hb : bFind s.buffers c' with _ | b
      · dsimp only
        have hmsgs : bufMsgs s c' = [] := by
          unfold bufMsgs
          rw [hb]
        have haddf : addedFor c' [BufEv.add c' m meta] = [m] := by
          simp [addedFor]
        rw [haddf, hmsgs]
        by_cases hact : c' ∈ s.active
        · rw [if_pos hact]
          unfold bufMsgs deliveredFor
          dsimp only
          rw [bFind_cons_self]
          simp
        · rw [if_neg hact]
          unfold bufMsgs deliveredFor
          dsimp only
          rw [bFind_cons_self]
          simp
      · dsimp only
        have haddf : addedFor c' [BufEv.add c' m meta] = [m] := by
          simp [addedFor]
        have hmsgs : bufMsgs s c' = b.messages := by
          unfold bufMsgs
          rw [hb]
        rw [haddf, hmsgs]
        unfold bufMsgs deliveredFor
        dsimp only
        rw [bFind_bUpd, if_pos rfl, hb]
        simp
    · have haddf : addedFor c [BufEv.add c' m meta] = [] := by
        simp [addedFor, hc]
      rw [haddf, List.append_nil]
      rcases hb : bFind s.buffers c' with _ | b
      · dsimp only
        by_cases hact : c' ∈ s.active
        · rw [if_pos hact]
          unfold bufMsgs
          rw [bFind_cons_ne _ _ _ _ hc]
          rfl
        · rw [if_neg hact]
          unfold bufMsgs
          rw [bFind_cons_ne _ _ _ _ hc]
          rfl
      · dsimp only
        unfold bufMsgs
        rw [bFind_bUpd, if_neg (fun hh : c = c' => hc hh.symm)]
        rfl
  | wake c' =>
    unfold step
    dsimp only
    have haddf : addedFor c [BufEv.wake (M := M) c'] = [] := by simp [addedFor]
    rw [haddf, List.append_nil]
    by_cases hmem : (c', WPhase.waiting) ∈ s.watchers
    · rw [if_pos hmem]
      rcases hb : bFind s.buffers c' with _ | b
      · rfl
      · dsimp only
        by_cases ht : s.now + 1 ≥ b.lastUpdate + delay
        · rw [if_pos ht]
          by_cases hc : c' = c
          · subst hc
            unfold bufMsgs deliveredFor
            dsimp only
            rw [bFind_bErase, if_pos rfl, List.filter_append, hb]
            simp
          · unfold bufMsgs deliveredFor
            dsimp only
            rw [bFind_bErase, if_neg (fun hh : c = c' => hc hh.symm),
              List.filter_append]
            simp [hc]
        · rw [if_neg ht]
    · rw [if_neg hmem]
  | finish c' =>
    unfold step
    dsimp only
    have haddf : addedFor c [BufEv.finish (M := M) c'] = [] := by simp [addedFor]
    rw [haddf, List.append_nil]
    by_cases hmem : (c', WPhase.calling) ∈ s.watchers
    · rw [if_pos hmem]
      rfl
    · rw [if_neg hmem]
  | finishErr c' => exact absurd rfl (herr c')
  | clear c' => exact absurd rfl (hcl c')
  | tick n =>
    have haddf : addedFor c [BufEv.tick (M := M) n] = [] := by simp [addedFor]
    rw [haddf, List.append_nil]
    rfl

theorem conserv_foldl {M : Type} (delay : Nat) (c : String)
    (tr : List (BufEv M)) (s : BufState M) (hcl : NoClear tr)
    (herr : NoErr tr) :
    ((deliveredFor (tr.foldl (fun s e => step delay e s) s) c).map
        Delivery.msgs).flatten ++
      bufMsgs (tr.foldl (fun s e => step delay e s) s) c =
    (((deliveredFor s c).map Delivery.msgs).flatten ++ bufMsgs s c) ++
      addedFor c tr := by
  induction tr generalizing s with
  | nil => simp [addedFor]
  | cons e rest ih =>
    have hcl1 : ∀ c', e ≠ BufEv.clear c' := by
      intro c' he
      unfold NoClear at hcl
      rw [List.all_cons, Bool.and_eq_true] at hcl
      rw [he] at hcl
      exact absurd hcl.1 (by simp)
    have herr1 : ∀ c', e ≠ BufEv.finishErr c' := by
      intro c' he
      unfold NoErr at herr
      rw [List.all_cons, Bool.and_eq_true] at herr
      rw [he] at herr
      exact absurd herr.1 (by simp)
    have hcl2 : NoClear rest := by
      unfold NoClear at hcl ⊢
      rw [List.all_cons, Bool.and_eq_true] at hcl
      exact hcl.2
    have herr2 : NoErr rest := by
      unfold NoErr at herr ⊢
      rw [List.all_cons, Bool.and_eq_true] at herr
      exact herr.2
    rw [List.foldl_cons, ih (step delay e s) hcl2 herr2,
      conserv_step delay c e s hcl1 herr1, addedFor_cons,
      List.append_assoc]
    have hnil : addedFor c ([] : List (BufEv M)) = [] := by simp [addedFor]
    rw [hnil, List.append_nil, ← addedFor_cons]

/-- C3: (1) when a watcher's elapsed-time check passes it atomically removes
the buffer and invokes the handler exactly once, with the combined message
equal to the buffered messages joined by single spaces and the creation-time
metadata passed through unchanged; (2) when the buffer is already gone the
wake aborts silently with no handler invocation; (3) in every schedule
without `clear`/callback failures, the messages accepted for a customer equal,
in arrival order, the concatenation of the delivered batches followed by the
still-buffered messages — so each flushed buffer holds exactly the accepted,
not-yet-delivered messages in arrival order. -/
theorem flush_joins_in_arrival_order :
    (∀ (M : Type) (delay : Nat) (s : BufState M) (c : String) (b : PyBuffer M),
      (c, WPhase.waiting) ∈ s.watchers →
      bFind s.buffers c = some b →
      s.now + 1 ≥ b.lastUpdate + delay →
      (step delay (.wake c) s).delivered =
        s.delivered ++
          [{ cust := c, msgs := b.messages, combined := joinSpace b.messages,
             meta := b.metadata }] ∧
      bFind (step delay (.wake c) s).buffers c = none) ∧
    (∀ (M : Type) (delay : Nat) (s : BufState M) (c : String),
      bFind s.buffers c = none →
      (step delay (.wake c) s).delivered = s.delivered) ∧
    (∀ (M : Type) (delay : Nat) (evs : List (BufEv M)) (c : String),
      NoClear evs → NoErr evs →
      addedFor c evs =
        ((deliveredFor (runBuf delay evs) c).map Delivery.msgs).flatten ++
          bufMsgs (runBuf delay evs) c) := by
  refine ⟨?_, ?_, ?_⟩
  · intro M delay s c b hw hb ht
    unfold step
    dsimp only
    rw [if_pos hw, hb]
    dsimp only
    rw [if_pos ht]
    refine ⟨rfl, ?_⟩
    rw [bFind_bErase]
    simp
  · intro M delay s c hb
    unfold step
    dsimp only
    by_cases hw : (c, WPhase.waiting) ∈ s.watchers
    · rw [if_pos hw, hb]
    · rw [if_neg hw]
  · intro M delay evs c hcl herr
    have h := conserv_foldl delay c evs initBuf hcl herr
    have hinit : ((deliveredFor (initBuf (M := M)) c).map
        Delivery.msgs).flatten ++ bufMsgs (initBuf (M := M)) c = [] := rfl
    unfold runBuf
    rw [h, hinit]
    rfl

/-- The scheduler state just before the flush of a three-message burst. -/
def preFlushState : BufState Nat :=
  runBuf 30
    [.add "c" "Halo" 1, .add "c" "internet mati" 1, .add "c" "gimana nih" 1,
     .tick 30]

/-- The buffer held in `preFlushState`. -/
def preFlushBuf : PyBuffer Nat :=
  { messages := ["Halo", "internet mati", "gimana nih"], metadata := 1,
    createdAt := 0, lastUpdate := 0 }

/-- C3 witness: the three parts applied at concrete inputs — a flush of a
three-message burst (combined `"Halo internet mati gimana nih"`), a wake with
no buffer, and the conservation equation on the burst schedule. -/
theorem flush_joins_in_arrival_order_witness :
    ((step 30 (BufEv.wake "c") preFlushState).delivered =
        preFlushState.delivered ++
          [{ cust := "c", msgs := ["Halo", "internet mati", "gimana nih"],
             combined := joinSpace ["Halo", "internet mati", "gimana nih"],
             meta := 1 }] ∧
      bFind (step 30 (BufEv.wake "c") preFlushState).buffers "c" = none) ∧
    (step 30 (BufEv.wake "x") (initBuf (M := Nat))).delivered =
      (initBuf (M := Nat)).delivered ∧
    addedFor "c" burstTrace =
      ((deliveredFor (runBuf 30 burstTrace) "c").map Delivery.msgs).flatten ++
        bufMsgs (runBuf 30 burstTrace) "c" :=
  ⟨flush_joins_in_arrival_order.1 Nat 30 preFlushState "c" preFlushBuf
      (by decide) (by decide) (by decide),
   flush_joins_in_arrival_order.2.1 Nat 30 initBuf "x" rfl,
   flush_joins_in_arrival_order.2.2 Nat 30 burstTrace "c" (by decide)
      (by decide)⟩
